import Mathlib

/-!
Shallow embedding of the medscribe clinical-extraction pipeline
(`src/backend/extraction_service.py`) and verification of its specification.

Strings are modelled as `List Char`.  Python's `str.replace(a, b)` with a
one-character pattern is a character map; `str.replace("  ", " ")` is the
left-to-right, non-overlapping scan `collapseDoubleSpace`.  The two network
providers are modelled as optional functions from the prompt to a result
(`Except` for an exception), carried in an `Env` record together with the
clock; `extract_clinical_data` also returns the list of provider calls it
performed, so that "no network call is made" is statable.
-/

set_option maxRecDepth 100000

namespace Medscribe

/-- The whitespace set recognised by Python's `str.strip()` and `\s` (the
characters on which `str.isspace()` is true): the six ASCII whitespace
characters together with the information separators U+001C–U+001F, the next
line U+0085, and the Unicode space characters U+00A0, U+1680,
U+2000–U+200A, U+2028, U+2029, U+202F, U+205F and U+3000. -/
def pyIsSpace (c : Char) : Bool :=
  c = ' ' || c = '\t' || c = '\n' || c = '\r' || c = '\x0b' || c = '\x0c' ||
  c = '\x1c' || c = '\x1d' || c = '\x1e' || c = '\x1f' || c = '\x85' ||
  c = '\xa0' || c = '\u1680' || ('\u2000' ≤ c && c ≤ '\u200a') ||
  c = '\u2028' || c = '\u2029' || c = '\u202f' || c = '\u205f' || c = '\u3000'

/-- `str.replace(a, b)` for one-character `a` and `b`: a character map. -/
def replaceChar (a b : Char) (s : List Char) : List Char :=
  s.map fun c => if c = a then b else c

/-- `str.replace("  ", " ")`: left-to-right, non-overlapping replacement of
each double space by a single space (single pass, as in the source). -/
def collapseDoubleSpace : List Char → List Char
  | [] => []
  | [c] => [c]
  | c :: d :: rest =>
    if c = ' ' ∧ d = ' ' then ' ' :: collapseDoubleSpace rest
    else c :: collapseDoubleSpace (d :: rest)

/-- Whether the text contains two consecutive spaces somewhere. -/
def hasDoubleSpace : List Char → Bool
  | [] => false
  | [_] => false
  | c :: d :: rest => (c = ' ' && d = ' ') || hasDoubleSpace (d :: rest)

/-- Drop the longest suffix of `l` all of whose characters satisfy `p`. -/
def dropTrailing (p : Char → Bool) (l : List Char) : List Char :=
  (l.reverse.dropWhile p).reverse

/-- Python `str.strip()`: remove leading and trailing whitespace. -/
def pyStrip (l : List Char) : List Char :=
  dropTrailing pyIsSpace (l.dropWhile pyIsSpace)

/-- `ExtractionService.clean_transcript`: strip, replace newline /
carriage-return / tab by spaces, collapse double spaces once, truncate
to the first 50000 characters. -/
def clean_transcript (transcript : List Char) : List Char :=
  (collapseDoubleSpace
    (replaceChar '\t' ' '
      (replaceChar '\r' ' '
        (replaceChar '\n' ' ' (pyStrip transcript))))).take 50000

/-- `startsWithSeq pat s` tests whether `pat` occurs at the head of `s`. -/
def startsWithSeq : List Char → List Char → Bool
  | [], _ => true
  | _ :: _, [] => false
  | p :: ps, c :: cs => p = c && startsWithSeq ps cs

/-- Python `str.replace(pat, rep)` for a non-empty pattern: left-to-right,
non-overlapping replacement of every occurrence. -/
def pyReplace (pat rep : List Char) : List Char → List Char
  | [] => []
  | c :: rest =>
    if pat ≠ [] ∧ startsWithSeq pat (c :: rest) = true then
      rep ++ pyReplace pat rep (rest.drop (pat.length - 1))
    else
      c :: pyReplace pat rep rest
termination_by s => s.length
decreasing_by
· simp only [List.length_cons, List.length_drop]
  omega
· simp only [List.length_cons]
  omega

/-- Modelled from the spec: `CLINICAL_EXTRACTION_PROMPT` is imported by the
service from `prompt_clinical_extraction.py`, a file not among the provided
sources.  Per spec section 4.2 it is one static template that enumerates the
category list, instructs the delimited reply format with the two literal
markers, and contains a single doubly-braced TRANSCRIPT placeholder token. -/
def CLINICAL_EXTRACTION_PROMPT : List Char :=
  ("You are given a medical consultation transcript. Extract clinical data points for each category of the fixed category list and reply exactly in the delimited format:\n=== CLINICAL DATA EXTRACTION ===\n1. <Category>:\n- <detail>\n=== END OF EXTRACTION ===\n\nTranscript:\n\x7b\x7bTRANSCRIPT\x7d\x7d").data

/-- `ExtractionService.generate_prompt`: substitute the transcript for the
placeholder token in the static template. -/
def generate_prompt (transcript : List Char) : List Char :=
  pyReplace "\x7b\x7bTRANSCRIPT\x7d\x7d".data transcript CLINICAL_EXTRACTION_PROMPT

/-- One parsed record: a category name and its ordered detail strings. -/
structure ExtractionRecord where
  category : List Char
  details : List (List Char)
deriving DecidableEq

/-- The `summary` object assembled by `structure_output`. -/
structure Summary where
  totalDataPoints : Nat
  categoriesFound : List (List Char)
  confidenceScore : Option Nat
deriving DecidableEq

/-- The structured extraction result (`categories` plus `summary`). -/
structure ExtractionResult where
  categories : List ExtractionRecord
  summary : Summary
deriving DecidableEq

/-- The line-boundary characters recognised by Python `str.splitlines()`. -/
def isLineBreak (c : Char) : Bool :=
  c = '\n' || c = '\r' || c = '\x0b' || c = '\x0c' ||
  c = '\x1c' || c = '\x1d' || c = '\x1e' || c = '\x85' ||
  c = '\u2028' || c = '\u2029'

/-- Worker for `pySplitlines`; `acc` holds the current line reversed. -/
def splitlinesAux (acc : List Char) : List Char → List (List Char)
  | [] => if acc = [] then [] else [acc.reverse]
  | '\r' :: '\n' :: rest => acc.reverse :: splitlinesAux [] rest
  | c :: rest =>
    if isLineBreak c then acc.reverse :: splitlinesAux [] rest
    else splitlinesAux (c :: acc) rest

/-- Python `str.splitlines()`: split at line boundaries, with a carriage
return followed by a newline counting as one boundary and no empty final
line for a trailing boundary. -/
def pySplitlines (s : List Char) : List (List Char) :=
  splitlinesAux [] s

/-- Whether `re.match` with pattern digits-then-period succeeds on the line:
the line starts with one or more digits followed by a period. -/
def isNumberedLine (l : List Char) : Bool :=
  match l with
  | c :: _ =>
    c.isDigit &&
      (match l.dropWhile Char.isDigit with
       | '.' :: _ => true
       | _ => false)
  | [] => false

/-- `re.sub` of the leading digits-period-whitespace run by the empty string,
as applied by `parse_section` to a line matched by `isNumberedLine`. -/
def dropNumberHeader (l : List Char) : List Char :=
  ((l.dropWhile Char.isDigit).drop 1).dropWhile pyIsSpace

/-- Python `line.rstrip(":")`: drop every trailing colon. -/
def rstripColons (l : List Char) : List Char :=
  (l.reverse.dropWhile (fun c => c = ':')).reverse

/-- The loop of `ExtractionService.parse_section`: a numbered line flushes
the open record and opens a new one; a dash line while a record is open
appends a detail; other lines are dropped; the last open record is flushed
at the end. -/
def parseLines : List (List Char) → Option ExtractionRecord → List ExtractionRecord
  | [], none => []
  | [], some cur => [cur]
  | line :: rest, cur =>
    if isNumberedLine line then
      cur.toList ++
        parseLines rest (some ⟨rstripColons (dropNumberHeader line), []⟩)
    else
      match cur with
      | some c =>
        if startsWithSeq ['-'] line then
          parseLines rest (some ⟨c.category, c.details ++ [pyStrip (line.drop 1)]⟩)
        else parseLines rest (some c)
      | none => parseLines rest none

/-- `ExtractionService.parse_section`: strip each line, keep the non-blank
ones, and run the record-building loop. -/
def parse_section (sec : List Char) : List ExtractionRecord :=
  parseLines (((pySplitlines sec).map pyStrip).filter (fun l => l ≠ [])) none

/-- Follows the spec's words (section 4.4), as the refinement target for the
order-preservation claim: the details of a record are the trimmed payloads of
the dash lines that follow it, up to (exclusive) the next numbered line, in
the order encountered. -/
def specDetails : List (List Char) → List (List Char)
  | [] => []
  | l :: ls =>
    if isNumberedLine l then []
    else if startsWithSeq ['-'] l then pyStrip (l.drop 1) :: specDetails ls
    else specDetails ls

/-- Follows the spec's words (section 4.4), as the refinement target for the
order-preservation claim: one record per numbered line, in first-seen order
with no sorting and no de-duplication, each named by its line with the number
header dropped and trailing colons removed; lines before the first numbered
line contribute nothing. -/
def specRecords : List (List Char) → List ExtractionRecord
  | [] => []
  | l :: ls =>
    if isNumberedLine l then
      ⟨rstripColons (dropNumberHeader l), specDetails ls⟩ :: specRecords ls
    else specRecords ls

/-- The spec-side rendering of `parse_section` built from `specRecords`. -/
def parseSectionSpec (sec : List Char) : List ExtractionRecord :=
  specRecords (((pySplitlines sec).map pyStrip).filter (fun l => l ≠ []))

/-- The literal opening marker of the delimited section. -/
def openMarker : List Char := "=== CLINICAL DATA EXTRACTION ===".data

/-- The literal closing marker of the delimited section. -/
def closeMarker : List Char := "=== END OF EXTRACTION ===".data

/-- The suffix of the text after the first occurrence of `pat`, if any. -/
def afterFirstOccurrence (pat : List Char) : List Char → Option (List Char)
  | [] => none
  | c :: rest =>
    if startsWithSeq pat (c :: rest) then some ((c :: rest).drop pat.length)
    else afterFirstOccurrence pat rest

/-- The text strictly before the first occurrence of `pat`, if any. -/
def beforeFirstOccurrence (pat : List Char) : List Char → Option (List Char)
  | [] => none
  | c :: rest =>
    if startsWithSeq pat (c :: rest) then some []
    else (beforeFirstOccurrence pat rest).map (fun l => c :: l)

/-- `ExtractionService.structure_output`: the non-greedy regex search for the
text between the two literal markers (leftmost opening marker, then the
nearest closing marker after it), parsed by `parse_section`; without a match
the category list is empty.  The summary counts the records and lists every
record's category name. -/
def structure_output (raw_output : List Char) : ExtractionResult :=
  let cats : List ExtractionRecord :=
    match (afterFirstOccurrence openMarker raw_output).bind
        (beforeFirstOccurrence closeMarker) with
    | some sec => parse_section sec
    | none => []
  { categories := cats
    summary :=
      { totalDataPoints := cats.length
        categoriesFound := cats.map (fun c => c.category)
        confidenceScore := none } }

/-- The validation report (`isValid`, `warnings`, `errors`). -/
structure ValidationReport where
  isValid : Bool
  warnings : List (List Char)
  errors : List (List Char)
deriving DecidableEq

/-- The required-category substrings checked by the validator. -/
def requiredCategories : List (List Char) :=
  ["Chief Complaint".data, "History of Present Illness".data]

/-- Python `str.lower()` (character-wise). -/
def lowerL (l : List Char) : List Char := l.map Char.toLower

/-- Python substring membership: `containsSeq s pat` is `pat in s`. -/
def containsSeq : List Char → List Char → Bool
  | s, pat =>
    match s with
    | [] => startsWithSeq pat []
    | _ :: rest => startsWithSeq pat s || containsSeq rest pat

/-- The fixed error message for the zero-data-points case. -/
def noDataPointsMsg : List Char := "No clinical data points extracted".data

/-- The warning text for a missing required category. -/
def missingCategoryMsg (req : List Char) : List Char :=
  "Missing expected category: ".data ++ req

/-- `ExtractionService.validate_extraction`: warn (in the fixed order) for
each required substring that no produced category name contains
case-insensitively; set `isValid` false and append the fixed error exactly
when `totalDataPoints` is zero. -/
def validate_extraction (structured : ExtractionResult) : ValidationReport :=
  let found := structured.categories.map (fun c => c.category)
  let warnings := requiredCategories.filterMap (fun req =>
    if found.any (fun f => containsSeq (lowerL f) (lowerL req)) then none
    else some (missingCategoryMsg req))
  if structured.summary.totalDataPoints = 0 then
    { isValid := false, warnings := warnings, errors := [noDataPointsMsg] }
  else
    { isValid := true, warnings := warnings, errors := [] }

/-- The canned reply of `ExtractionService.generate_mock_response`. -/
def generate_mock_response : List Char :=
  ("=== CLINICAL DATA EXTRACTION ===\n\n1. Chief Complaint/Reason for Visit:\n   - Patient presents with chest pain for 2 days\n   - Describes pain as \"sharp and stabbing\"\n\n2. History of Present Illness (HPI):\n   - Onset: 2 days ago, sudden onset\n   - Character: Sharp, stabbing pain\n   - Location: Left side of chest\n   - Severity: 7/10 on pain scale\n   - Aggravating factors: Deep breathing, movement\n   - Associated symptoms: Shortness of breath\n\n3. Current Medications:\n   - Lisinopril 10mg daily for hypertension\n   - Metformin 500mg twice daily for diabetes\n\n4. Past Medical History:\n   - Hypertension diagnosed 5 years ago\n   - Type 2 diabetes diagnosed 3 years ago\n\n=== END OF EXTRACTION ===\n").data

/-- A provider invocation performed by the gateway. -/
inductive ProviderCall
  | openai
  | claude
deriving DecidableEq

/-- The caller-supplied options of `process_transcript`. -/
structure PipeOptions where
  mockResponse : Bool
  method : Option (List Char)

/-- The process environment: each configured provider is a function from the
prompt to a reply or an exception message (`none` when its key is absent),
plus the current timestamp. -/
structure Env where
  openaiClient : Option (List Char → Except (List Char) (List Char))
  claudeClient : Option (List Char → Except (List Char) (List Char))
  now : List Char

/-- The message of the `RuntimeError` raised when no provider is configured. -/
def noProviderMsg : List Char :=
  "No API keys configured. Set OPENAI_API_KEY or CLAUDE_API_KEY.".data

/-- `ExtractionService.extract_clinical_data`, paired with the sequence of
provider calls it performs: mock mode returns the canned reply at once; a
configured primary is tried first and, on failure, a configured secondary is
tried once, whose outcome (success or its own exception) is what the caller
sees; without a secondary the original exception propagates; with neither
provider a `RuntimeError` is raised without any call. -/
def extract_clinical_data (env : Env) (prompt : List Char) (options : PipeOptions) :
    Except (List Char) (List Char) × List ProviderCall :=
  if options.mockResponse then
    (Except.ok generate_mock_response, [])
  else
    match env.openaiClient with
    | some oc =>
      match oc prompt with
      | Except.ok text => (Except.ok text, [ProviderCall.openai])
      | Except.error e =>
        match env.claudeClient with
        | some cc => (cc prompt, [ProviderCall.openai, ProviderCall.claude])
        | none => (Except.error e, [ProviderCall.openai])
    | none =>
      match env.claudeClient with
      | some cc => (cc prompt, [ProviderCall.claude])
      | none => (Except.error noProviderMsg, [])

/-- The `metadata` object of a pipeline outcome. -/
structure Metadata where
  processedAt : List Char
  transcriptLength : Option Nat
  extractionMethod : Option (List Char)
deriving DecidableEq

/-- The envelope returned by `process_transcript`. -/
structure PipelineOutcome where
  success : Bool
  data : Option ExtractionResult
  validation : Option ValidationReport
  error : Option (List Char)
  metadata : Metadata
deriving DecidableEq

/-- The message of the `ValueError` raised on an empty transcript. -/
def invalidTranscriptMsg : List Char := "Invalid transcript provided".data

/-- `ExtractionService.process_transcript`, paired with the provider calls
performed: the orchestrator cleans the transcript, builds the prompt, runs
the gateway, structures and validates the reply, and catches every exception
into a failure envelope whose `error` is the exception's message. -/
def process_transcript (env : Env) (transcript : List Char) (options : PipeOptions) :
    PipelineOutcome × List ProviderCall :=
  if transcript = [] then
    ({ success := false
       data := none
       validation := none
       error := some invalidTranscriptMsg
       metadata := { processedAt := env.now, transcriptLength := none,
                     extractionMethod := none } }, [])
  else
    let cleaned := clean_transcript transcript
    let fullPrompt := generate_prompt cleaned
    match extract_clinical_data env fullPrompt options with
    | (Except.ok extractedText, calls) =>
      let structured := structure_output extractedText
      let validation := validate_extraction structured
      ({ success := true
         data := some structured
         validation := some validation
         error := none
         metadata := { processedAt := env.now
                       transcriptLength := some cleaned.length
                       extractionMethod :=
                         some (options.method.getD "default".data) } }, calls)
    | (Except.error e, calls) =>
      ({ success := false
         data := none
         validation := none
         error := some e
         metadata := { processedAt := env.now, transcriptLength := none,
                       extractionMethod := none } }, calls)

/-- An environment with neither provider key configured. -/
def envNoProviders : Env :=
  { openaiClient := none, claudeClient := none, now := "2026-10-12T00:00:00".data }

/-- An environment where both providers are configured and both calls fail,
with distinct exception messages. -/
def envBothFail : Env :=
  { openaiClient := some fun _ => Except.error "E1".data
    claudeClient := some fun _ => Except.error "E2".data
    now := "2026-10-12T00:00:00".data }

/-- An environment where only the primary provider is configured and its
call fails. -/
def envOnlyPrimaryFailing : Env :=
  { openaiClient := some fun _ => Except.error "E1".data
    claudeClient := none
    now := "2026-10-12T00:00:00".data }

/-- The spec's mock-mode scenario transcript. -/
def scenarioTranscript : List Char :=
  "Doctor: hi. Patient: chest pain for two days.".data

/-! ### Helper lemmas about `clean_transcript` -/

theorem length_take_le' (n : Nat) (l : List Char) : (l.take n).length ≤ n := by
  rw [List.length_take]
  exact Nat.min_le_left n l.length

theorem length_clean_transcript_le (t : List Char) :
    (clean_transcript t).length ≤ 50000 :=
  length_take_le' 50000 _

theorem not_mem_replaceChar (a b c : Char) (l : List Char)
    (hb : c ≠ b) (h : c = a ∨ c ∉ l) : c ∉ replaceChar a b l := by
  intro hmem
  rcases List.mem_map.1 hmem with ⟨d, hd, hfd⟩
  by_cases hda : d = a
  · rw [if_pos hda] at hfd
    exact hb hfd.symm
  · rw [if_neg hda] at hfd
    subst hfd
    rcases h with h | h
    · exact hda h
    · exact h hd

theorem mem_collapseDoubleSpace : ∀ (l : List Char) (c : Char),
    c ∈ collapseDoubleSpace l → c ∈ l
  | [], c, h => by simp [collapseDoubleSpace] at h
  | [d], c, h => by simpa [collapseDoubleSpace] using h
  | d :: e :: rest, c, h => by
    by_cases hde : d = ' ' ∧ e = ' '
    · rw [collapseDoubleSpace, if_pos hde] at h
      rcases List.mem_cons.1 h with h | h
      · subst h
        rw [hde.1]
        exact List.mem_cons_self _ _
      · exact List.mem_cons_of_mem _ (List.mem_cons_of_mem _ (mem_collapseDoubleSpace rest c h))
    · rw [collapseDoubleSpace, if_neg hde] at h
      rcases List.mem_cons.1 h with h | h
      · exact h ▸ List.mem_cons_self _ _
      · exact List.mem_cons_of_mem _ (mem_collapseDoubleSpace (e :: rest) c h)

theorem mem_of_mem_take' (n : Nat) (l : List Char) (c : Char)
    (h : c ∈ l.take n) : c ∈ l :=
  (List.take_sublist n l).mem h

theorem not_mem_replaced (l0 : List Char) (c : Char)
    (hc : c = '\n' ∨ c = '\r' ∨ c = '\t') :
    c ∉ replaceChar '\t' ' ' (replaceChar '\r' ' ' (replaceChar '\n' ' ' l0)) := by
  rcases hc with h | h | h
  · subst h
    exact not_mem_replaceChar _ _ _ _ (by decide)
      (Or.inr (not_mem_replaceChar _ _ _ _ (by decide)
        (Or.inr (not_mem_replaceChar _ _ _ _ (by decide) (Or.inl rfl)))))
  · subst h
    exact not_mem_replaceChar _ _ _ _ (by decide)
      (Or.inr (not_mem_replaceChar _ _ _ _ (by decide) (Or.inl rfl)))
  · subst h
    exact not_mem_replaceChar _ _ _ _ (by decide) (Or.inl rfl)

theorem not_mem_clean_transcript (t : List Char) (c : Char)
    (hc : c = '\n' ∨ c = '\r' ∨ c = '\t') : c ∉ clean_transcript t := by
  intro hmem
  exact not_mem_replaced (pyStrip t) c hc
    (mem_collapseDoubleSpace _ c (mem_of_mem_take' _ _ _ hmem))

/-! ### Fixed points of the normalization passes -/

theorem head?_dropWhile_false (p : Char → Bool) :
    ∀ (l : List Char) (c : Char), (l.dropWhile p).head? = some c → p c = false
  | [], c, h => by simp at h
  | a :: r, c, h => by
    by_cases ha : p a
    · rw [List.dropWhile_cons, if_pos ha] at h
      exact head?_dropWhile_false p r c h
    · rw [List.dropWhile_cons, if_neg ha] at h
      rw [List.head?_cons, Option.some.injEq] at h
      rw [← h]
      exact Bool.not_eq_true _ ▸ ha

theorem dropTrailing_append (p : Char → Bool) (l : List Char) :
    dropTrailing p l ++ (l.reverse.takeWhile p).reverse = l := by
  unfold dropTrailing
  rw [← List.reverse_append, List.takeWhile_append_dropWhile, List.reverse_reverse]

theorem head?_of_dropTrailing (p : Char → Bool) (l : List Char) (c : Char)
    (h : (dropTrailing p l).head? = some c) : l.head? = some c := by
  rcases hd : dropTrailing p l with _ | ⟨a, m⟩
  · rw [hd] at h
    simp at h
  · rw [hd] at h
    rw [List.head?_cons, Option.some.injEq] at h
    subst h
    rw [← dropTrailing_append p l, hd]
    simp

theorem head?_pyStrip_false (l : List Char) (c : Char)
    (h : (pyStrip l).head? = some c) : pyIsSpace c = false :=
  head?_dropWhile_false pyIsSpace l c
    (head?_of_dropTrailing pyIsSpace (l.dropWhile pyIsSpace) c h)

theorem head?_replaceChar_space (a : Char) (ha : pyIsSpace a = true)
    (l : List Char) (H : ∀ c, l.head? = some c → pyIsSpace c = false) :
    ∀ c, (replaceChar a ' ' l).head? = some c → pyIsSpace c = false := by
  intro c h
  unfold replaceChar at h
  rw [List.head?_map] at h
  rcases Option.map_eq_some'.1 h with ⟨c0, hc0, hfc0⟩
  have h0 := H c0 hc0
  by_cases hca : c0 = a
  · rw [hca] at h0
    rw [ha] at h0
    cases h0
  · rw [if_neg hca] at hfc0
    rw [← hfc0]
    exact h0

theorem head?_collapseDoubleSpace : ∀ l : List Char,
    (collapseDoubleSpace l).head? = l.head?
  | [] => rfl
  | [_] => rfl
  | c :: d :: rest => by
    by_cases hde : c = ' ' ∧ d = ' '
    · rw [collapseDoubleSpace, if_pos hde]
      simp [hde.1]
    · rw [collapseDoubleSpace, if_neg hde]
      simp

theorem head?_take_pos (n : Nat) (l : List Char) (h : 0 < n) :
    (l.take n).head? = l.head? := by
  cases l with
  | nil => simp
  | cons a r =>
    cases n with
    | zero => exact absurd h (by simp)
    | succ m => simp [List.take_succ_cons]

theorem head?_clean_transcript_false (t : List Char) (c : Char)
    (h : (clean_transcript t).head? = some c) : pyIsSpace c = false := by
  unfold clean_transcript at h
  rw [head?_take_pos _ _ (by norm_num), head?_collapseDoubleSpace] at h
  exact head?_replaceChar_space '\t' (by decide) _
    (head?_replaceChar_space '\r' (by decide) _
      (head?_replaceChar_space '\n' (by decide) _
        (fun c0 hc0 => head?_pyStrip_false t c0 hc0))) c h

theorem dropWhile_eq_self_of (p : Char → Bool) (l : List Char)
    (H : ∀ c, l.head? = some c → p c = false) : l.dropWhile p = l := by
  cases l with
  | nil => rfl
  | cons a r =>
    rw [List.dropWhile_cons, if_neg ?_]
    rw [H a rfl]
    simp

theorem pyStrip_eq_self (l : List Char)
    (H1 : ∀ c, l.head? = some c → pyIsSpace c = false)
    (H2 : ∀ c, l.getLast? = some c → pyIsSpace c = false) : pyStrip l = l := by
  unfold pyStrip dropTrailing
  rw [dropWhile_eq_self_of _ _ H1]
  rw [dropWhile_eq_self_of _ _ (fun c hc => H2 c (by rwa [List.head?_reverse] at hc))]
  exact List.reverse_reverse l

theorem replaceChar_eq_self (a b : Char) :
    ∀ l : List Char, a ∉ l → replaceChar a b l = l
  | [], _ => rfl
  | c :: r, h => by
    have hca : c ≠ a := fun hc => h (hc ▸ List.mem_cons_self _ _)
    unfold replaceChar
    rw [List.map_cons]
    rw [if_neg hca]
    have := replaceChar_eq_self a b r (fun hm => h (List.mem_cons_of_mem _ hm))
    unfold replaceChar at this
    rw [this]

theorem collapseDoubleSpace_eq_self : ∀ l : List Char,
    hasDoubleSpace l = false → collapseDoubleSpace l = l
  | [], _ => rfl
  | [_], _ => rfl
  | c :: d :: rest, h => by
    rw [hasDoubleSpace] at h
    rcases Bool.or_eq_false_iff.1 h with ⟨h1, h2⟩
    have hde : ¬(c = ' ' ∧ d = ' ') := by
      intro hcd
      rw [hcd.1, hcd.2] at h1
      simp at h1
    rw [collapseDoubleSpace, if_neg hde]
    rw [collapseDoubleSpace_eq_self (d :: rest) h2]

/-! ### Unfolding lemmas for the orchestrator -/

theorem process_transcript_ok (env : Env) (t : List Char) (opts : PipeOptions)
    (x : List Char) (calls : List ProviderCall) (ht : t ≠ [])
    (hx : extract_clinical_data env (generate_prompt (clean_transcript t)) opts =
      (Except.ok x, calls)) :
    process_transcript env t opts =
      ({ success := true
         data := some (structure_output x)
         validation := some (validate_extraction (structure_output x))
         error := none
         metadata := { processedAt := env.now
                       transcriptLength := some (clean_transcript t).length
                       extractionMethod := some (opts.method.getD "default".data) } },
        calls) := by
  unfold process_transcript
  rw [if_neg ht]
  simp only [hx]

theorem process_transcript_err (env : Env) (t : List Char) (opts : PipeOptions)
    (e : List Char) (calls : List ProviderCall) (ht : t ≠ [])
    (hx : extract_clinical_data env (generate_prompt (clean_transcript t)) opts =
      (Except.error e, calls)) :
    process_transcript env t opts =
      ({ success := false
         data := none
         validation := none
         error := some e
         metadata := { processedAt := env.now, transcriptLength := none,
                       extractionMethod := none } },
        calls) := by
  unfold process_transcript
  rw [if_neg ht]
  simp only [hx]

/-! ### The record-building loop refines the spec's grouping -/

theorem parseLines_some : ∀ (ls : List (List Char)) (cat : List Char)
    (dets : List (List Char)),
    parseLines ls (some ⟨cat, dets⟩) =
      ⟨cat, dets ++ specDetails ls⟩ :: specRecords ls
  | [], cat, dets => by simp [parseLines, specDetails, specRecords]
  | l :: ls, cat, dets => by
    by_cases hn : isNumberedLine l = true
    · simp only [parseLines, specDetails, specRecords, hn, if_true,
        Option.toList_some, List.singleton_append]
      rw [parseLines_some ls]
      simp
    · by_cases hd : startsWithSeq ['-'] l = true
      · simp only [parseLines, specDetails, specRecords, hn, hd,
          Bool.false_eq_true, if_false, if_true]
        rw [parseLines_some ls]
        simp
      · simp only [parseLines, specDetails, specRecords, hn, hd,
          Bool.false_eq_true, if_false]
        exact parseLines_some ls cat dets

theorem parseLines_none : ∀ ls : List (List Char),
    parseLines ls none = specRecords ls
  | [] => rfl
  | l :: ls => by
    by_cases hn : isNumberedLine l = true
    · simp only [parseLines, specRecords, hn, if_true, Option.toList_none,
        List.nil_append]
      rw [parseLines_some ls]
      simp
    · simp only [parseLines, specRecords, hn, Bool.false_eq_true, if_false]
      exact parseLines_none ls

/-! ### Error messages reaching the orchestrator are non-empty -/

/-- Every exception message a configured provider may raise is non-empty
(Python's `str(e)`; empty only for a bare exception with no arguments). -/
def EnvErrorsNonEmpty (env : Env) : Prop :=
  (∀ f p e, env.openaiClient = some f → f p = Except.error e → e ≠ []) ∧
  (∀ g p e, env.claudeClient = some g → g p = Except.error e → e ≠ [])

theorem extract_error_nonempty (env : Env) (p : List Char) (opts : PipeOptions)
    (h : EnvErrorsNonEmpty env) (e : List Char) (calls : List ProviderCall)
    (hx : extract_clinical_data env p opts = (Except.error e, calls)) : e ≠ [] := by
  unfold extract_clinical_data at hx
  split at hx
  · simp at hx
  · split at hx
    · rename_i oc ho
      split at hx
      · simp at hx
      · rename_i e1 he1
        split at hx
        · rename_i cc hc
          have hcc : cc p = Except.error e := by
            have := congrArg Prod.fst hx
            simpa using this
          exact h.2 cc p e hc hcc
        · rename_i hc
          have he : e1 = e := by
            have := congrArg Prod.fst hx
            simpa using this
          exact he ▸ h.1 oc p e1 ho he1
    · rename_i ho
      split at hx
      · rename_i cc hc
        have hcc : cc p = Except.error e := by
          have := congrArg Prod.fst hx
          simpa using this
        exact h.2 cc p e hc hcc
      · rename_i hc
        have he : noProviderMsg = e := by
          have := congrArg Prod.fst hx
          simpa using this
        rw [← he]
        decide

/-! ### Claim theorems -/

/-- C1, counterexample: on a reply whose only record has an empty details
list, `categoriesFound` still lists that record's category name, so it is not
the sequence of names of records with non-empty details. -/
theorem C1_counterexample :
    (structure_output
        "=== CLINICAL DATA EXTRACTION ===\n1. Foo\n=== END OF EXTRACTION ===".data).summary.categoriesFound ≠
      ((structure_output
        "=== CLINICAL DATA EXTRACTION ===\n1. Foo\n=== END OF EXTRACTION ===".data).categories.filter
          (fun c => c.details ≠ [])).map (fun c => c.category) := by
  decide

/-- C1, amended: for every parsed extraction result produced by the pipeline,
`summary.categoriesFound` is the ordered sequence of the category names of
all parsed records, including records whose details sequence is empty. -/
theorem C1_categoriesFound_all_records (raw : List Char) :
    (structure_output raw).summary.categoriesFound =
      (structure_output raw).categories.map (fun c => c.category) := rfl

/-- C3, counterexample: on `"a   a"` (three interior spaces) the single-pass
double-space collapse leaves `"a  a"`, which a second normalization collapses
further to `"a a"`, so normalization is not idempotent on every accepted
string. -/
theorem C3_counterexample :
    clean_transcript (clean_transcript "a   a".data) ≠
      clean_transcript "a   a".data := by
  decide

/-- C3, amended: normalization is idempotent on every string whose normalized
form contains no two consecutive spaces and does not end in a whitespace
character; in general it is not idempotent, because the double-space collapse
is single-pass (runs of three or more spaces leave residual doubles) and the
truncation to 50000 characters can expose a trailing space. -/
theorem C3_idempotent_on_collapsed (x : List Char)
    (h1 : hasDoubleSpace (clean_transcript x) = false)
    (h2 : ∀ c, (clean_transcript x).getLast? = some c → pyIsSpace c = false) :
    clean_transcript (clean_transcript x) = clean_transcript x := by
  have hstrip : pyStrip (clean_transcript x) = clean_transcript x :=
    pyStrip_eq_self _ (fun c hc => head?_clean_transcript_false x c hc) h2
  have hn : replaceChar '\n' ' ' (clean_transcript x) = clean_transcript x :=
    replaceChar_eq_self _ _ _ (not_mem_clean_transcript x '\n' (Or.inl rfl))
  have hr : replaceChar '\r' ' ' (clean_transcript x) = clean_transcript x :=
    replaceChar_eq_self _ _ _ (not_mem_clean_transcript x '\r' (Or.inr (Or.inl rfl)))
  have htb : replaceChar '\t' ' ' (clean_transcript x) = clean_transcript x :=
    replaceChar_eq_self _ _ _ (not_mem_clean_transcript x '\t' (Or.inr (Or.inr rfl)))
  have hcol : collapseDoubleSpace (clean_transcript x) = clean_transcript x :=
    collapseDoubleSpace_eq_self _ h1
  calc clean_transcript (clean_transcript x)
      = (collapseDoubleSpace (replaceChar '\t' ' ' (replaceChar '\r' ' '
          (replaceChar '\n' ' ' (pyStrip (clean_transcript x)))))).take 50000 := rfl
    _ = clean_transcript x := by
        rw [hstrip, hn, hr, htb, hcol,
          List.take_of_length_le (length_clean_transcript_le x)]

/-- C3, witness: idempotence applied to `"  hello world "`, whose normalized
form `"hello world"` has no double space and ends in a non-space. -/
theorem C3_idempotent_on_collapsed_witness :
    clean_transcript (clean_transcript "  hello world ".data) =
      clean_transcript "  hello world ".data :=
  C3_idempotent_on_collapsed _ (by decide)
    (fun c hc => by
      have h : (clean_transcript "  hello world ".data).getLast? = some 'd' := by
        decide
      rw [h, Option.some.injEq] at hc
      rw [← hc]
      decide)

/-- C4, counterexample: on input `"a    a"` (four interior spaces) the
single-pass collapse leaves two consecutive spaces in the normalized output,
so the claimed conjunction fails. -/
theorem C4_counterexample :
    ¬ ((clean_transcript "a    a".data).length ≤ 50000 ∧
       '\n' ∉ clean_transcript "a    a".data ∧
       '\r' ∉ clean_transcript "a    a".data ∧
       '\t' ∉ clean_transcript "a    a".data ∧
       hasDoubleSpace (clean_transcript "a    a".data) = false) := by
  decide

/-- C4, amended: for every input string the normalized output has length at
most 50000 and contains no raw newline, carriage-return, or tab character;
the single-pass double-space collapse may however leave two consecutive
spaces behind (for runs of three or more spaces). -/
theorem C4_normalize_invariants (t : List Char) :
    (clean_transcript t).length ≤ 50000 ∧
    '\n' ∉ clean_transcript t ∧
    '\r' ∉ clean_transcript t ∧
    '\t' ∉ clean_transcript t :=
  ⟨length_clean_transcript_le t,
   not_mem_clean_transcript t _ (Or.inl rfl),
   not_mem_clean_transcript t _ (Or.inr (Or.inl rfl)),
   not_mem_clean_transcript t _ (Or.inr (Or.inr rfl))⟩

/-- C5: for every extraction result fed to the validator, `isValid` is false
exactly when `summary.totalDataPoints` is zero, in which case the fixed error
message is the only error; and the warnings are exactly one fixed message per
required substring (in the fixed order) that no produced category name
contains case-insensitively — warnings never touch `isValid` or `errors`. -/
theorem C5_validator (r : ExtractionResult) :
    ((validate_extraction r).isValid = false ↔ r.summary.totalDataPoints = 0) ∧
    ((validate_extraction r).errors =
      if r.summary.totalDataPoints = 0 then [noDataPointsMsg] else []) ∧
    ((validate_extraction r).warnings =
      requiredCategories.filterMap (fun req =>
        if (r.categories.map (fun c => c.category)).any
            (fun f => containsSeq (lowerL f) (lowerL req)) then none
        else some (missingCategoryMsg req))) := by
  unfold validate_extraction
  by_cases h : r.summary.totalDataPoints = 0 <;> simp [h]

/-- C2, counterexample: with both providers configured and both failing
(primary with message `E1`, secondary with message `E2`), the gateway
propagates the secondary's failure `E2`, not the original `E1`. -/
theorem C2_counterexample :
    extract_clinical_data envBothFail "p".data { mockResponse := false, method := none } =
      (Except.error "E2".data, [ProviderCall.openai, ProviderCall.claude]) ∧
    "E2".data ≠ "E1".data :=
  ⟨rfl, by decide⟩

/-- C2, amended: when the primary provider is configured and its call fails
and the secondary is configured, exactly one retry is made against the
secondary and the secondary's own outcome — its reply on success, its own
failure on failure — is what propagates to the caller; if the secondary is
not configured, the original primary failure propagates. -/
theorem C2_fallback_policy (env : Env) (prompt e1 : List Char) (opts : PipeOptions)
    (hm : opts.mockResponse = false)
    (f : List Char → Except (List Char) (List Char))
    (ho : env.openaiClient = some f) (hf : f prompt = Except.error e1) :
    (∀ g, env.claudeClient = some g →
      extract_clinical_data env prompt opts =
        (g prompt, [ProviderCall.openai, ProviderCall.claude])) ∧
    (env.claudeClient = none →
      extract_clinical_data env prompt opts =
        (Except.error e1, [ProviderCall.openai])) := by
  constructor
  · intro g hg
    simp [extract_clinical_data, hm, ho, hf, hg]
  · intro hg
    simp [extract_clinical_data, hm, ho, hf, hg]

/-- C2, witness: the amended fallback policy evaluated in the two concrete
environments (both providers failing; only the primary, failing). -/
theorem C2_fallback_policy_witness :
    extract_clinical_data envBothFail "p".data { mockResponse := false, method := none } =
      (Except.error "E2".data, [ProviderCall.openai, ProviderCall.claude]) ∧
    extract_clinical_data envOnlyPrimaryFailing "p".data { mockResponse := false, method := none } =
      (Except.error "E1".data, [ProviderCall.openai]) :=
  ⟨(C2_fallback_policy envBothFail "p".data "E1".data _ rfl _ rfl rfl).1 _ rfl,
   (C2_fallback_policy envOnlyPrimaryFailing "p".data "E1".data _ rfl _ rfl rfl).2 rfl⟩

/-- C9: with neither provider configured and mock mode off, the gateway makes
no provider call and fails with the no-provider `RuntimeError`; hence for any
non-empty transcript the pipeline outcome has `success = false`, its error is
that no-provider message, and no provider call was made. -/
theorem C9_no_provider (env : Env) (t p : List Char) (opts : PipeOptions)
    (ho : env.openaiClient = none) (hc : env.claudeClient = none)
    (hm : opts.mockResponse = false) (ht : t ≠ []) :
    extract_clinical_data env p opts = (Except.error noProviderMsg, []) ∧
    (process_transcript env t opts).1.success = false ∧
    (process_transcript env t opts).1.error = some noProviderMsg ∧
    (process_transcript env t opts).2 = [] := by
  have hx : ∀ q, extract_clinical_data env q opts = (Except.error noProviderMsg, []) := by
    intro q
    simp [extract_clinical_data, hm, ho, hc]
  have hp := process_transcript_err env t opts noProviderMsg [] ht (hx _)
  exact ⟨hx p, by rw [hp], by rw [hp], by rw [hp]⟩

/-- C9, witness: the no-provider behaviour evaluated at the environment with
no keys, transcript `"hi"`, and default options. -/
theorem C9_no_provider_witness :
    extract_clinical_data envNoProviders "p".data { mockResponse := false, method := none } =
      (Except.error noProviderMsg, []) ∧
    (process_transcript envNoProviders "hi".data { mockResponse := false, method := none }).1.success = false ∧
    (process_transcript envNoProviders "hi".data { mockResponse := false, method := none }).1.error =
      some noProviderMsg ∧
    (process_transcript envNoProviders "hi".data { mockResponse := false, method := none }).2 = [] :=
  C9_no_provider envNoProviders "hi".data "p".data _ rfl rfl rfl (by decide)

/-- C7: in mock mode, for any environment and any non-empty transcript, no
provider call is made and the pipeline succeeds with four extracted records,
a valid validation report, and no warnings. -/
theorem C7_mock_pipeline (env : Env) (t : List Char) (opts : PipeOptions)
    (ht : t ≠ []) (hm : opts.mockResponse = true) :
    (process_transcript env t opts).2 = [] ∧
    (process_transcript env t opts).1.success = true ∧
    ((process_transcript env t opts).1.data.map
      (fun d => d.summary.totalDataPoints)) = some 4 ∧
    ((process_transcript env t opts).1.validation.map
      (fun v => v.isValid)) = some true ∧
    ((process_transcript env t opts).1.validation.map
      (fun v => v.warnings)) = some [] := by
  have hx : extract_clinical_data env (generate_prompt (clean_transcript t)) opts =
      (Except.ok generate_mock_response, []) := by
    simp [extract_clinical_data, hm]
  have hp := process_transcript_ok env t opts generate_mock_response [] ht hx
  rw [hp]
  refine ⟨rfl, rfl, ?_, ?_, ?_⟩
  · show some (structure_output generate_mock_response).summary.totalDataPoints = some 4
    decide
  · show some (validate_extraction (structure_output generate_mock_response)).isValid = some true
    decide
  · show some (validate_extraction (structure_output generate_mock_response)).warnings = some []
    decide

/-- C7, witness: the mock pipeline evaluated on the spec's scenario
transcript with mock mode set and no provider configured. -/
theorem C7_mock_pipeline_witness :
    (process_transcript envNoProviders scenarioTranscript { mockResponse := true, method := none }).2 = [] ∧
    (process_transcript envNoProviders scenarioTranscript { mockResponse := true, method := none }).1.success = true ∧
    ((process_transcript envNoProviders scenarioTranscript { mockResponse := true, method := none }).1.data.map
      (fun d => d.summary.totalDataPoints)) = some 4 ∧
    ((process_transcript envNoProviders scenarioTranscript { mockResponse := true, method := none }).1.validation.map
      (fun v => v.isValid)) = some true ∧
    ((process_transcript envNoProviders scenarioTranscript { mockResponse := true, method := none }).1.validation.map
      (fun v => v.warnings)) = some [] :=
  C7_mock_pipeline envNoProviders scenarioTranscript _ (by decide) rfl

/-- C10: in mock mode the extracted content does not depend on the transcript
or on the provider configuration: any two runs with mock mode set, on any two
non-empty transcripts, in any two environments, produce identical `data` and
`validation` fields. -/
theorem C10_mock_noninterference (env1 env2 : Env) (t1 t2 : List Char)
    (o1 o2 : PipeOptions) (h1 : t1 ≠ []) (h2 : t2 ≠ [])
    (hm1 : o1.mockResponse = true) (hm2 : o2.mockResponse = true) :
    (process_transcript env1 t1 o1).1.data = (process_transcript env2 t2 o2).1.data ∧
    (process_transcript env1 t1 o1).1.validation =
      (process_transcript env2 t2 o2).1.validation := by
  have key : ∀ (env : Env) (t : List Char) (o : PipeOptions), t ≠ [] →
      o.mockResponse = true →
      (process_transcript env t o).1.data =
        some (structure_output generate_mock_response) ∧
      (process_transcript env t o).1.validation =
        some (validate_extraction (structure_output generate_mock_response)) := by
    intro env t o ht hm
    have hx : extract_clinical_data env (generate_prompt (clean_transcript t)) o =
        (Except.ok generate_mock_response, []) := by
      simp [extract_clinical_data, hm]
    rw [process_transcript_ok env t o generate_mock_response [] ht hx]
    exact ⟨rfl, rfl⟩
  obtain ⟨d1, v1⟩ := key env1 t1 o1 h1 hm1
  obtain ⟨d2, v2⟩ := key env2 t2 o2 h2 hm2
  rw [d1, d2, v1, v2]
  exact ⟨rfl, rfl⟩

/-- C10, witness: two mock-mode runs on different transcripts, one with no
provider configured and one with two failing providers, agree on `data` and
`validation`. -/
theorem C10_mock_noninterference_witness :
    (process_transcript envNoProviders "hello".data { mockResponse := true, method := none }).1.data =
      (process_transcript envBothFail scenarioTranscript { mockResponse := true, method := none }).1.data ∧
    (process_transcript envNoProviders "hello".data { mockResponse := true, method := none }).1.validation =
      (process_transcript envBothFail scenarioTranscript { mockResponse := true, method := none }).1.validation :=
  C10_mock_noninterference envNoProviders envBothFail "hello".data scenarioTranscript
    _ _ (by decide) (by decide) rfl rfl

/-- C8: parsing is order-preserving: the record loop agrees exactly with the
spec-side grouping, which returns one record per numbered line in first-seen
order, with the details of each record being the dash-line payloads
encountered before the next numbered line, in encounter order, with no
sorting and no de-duplication. -/
theorem C8_parse_order_preserving (sec : List Char) :
    parse_section sec = parseSectionSpec sec := by
  unfold parse_section parseSectionSpec
  exact parseLines_none _

/-- C6: the orchestrator never raises: `metadata.processedAt` is always
present; a failing run carries no `data` or `validation` and a non-empty
error message (given that the environment's provider exceptions stringify
non-empty, as the service's own exceptions do); a successful run reports the
normalized transcript's length and echoes the method tag (default
`"default"`). -/
theorem C6_orchestrator_envelope (env : Env) (t : List Char) (opts : PipeOptions)
    (h : EnvErrorsNonEmpty env) :
    (process_transcript env t opts).1.metadata.processedAt = env.now ∧
    ((process_transcript env t opts).1.success = false →
      (process_transcript env t opts).1.data = none ∧
      (process_transcript env t opts).1.validation = none ∧
      ∃ e, (process_transcript env t opts).1.error = some e ∧ e ≠ []) ∧
    ((process_transcript env t opts).1.success = true →
      (process_transcript env t opts).1.error = none ∧
      (process_transcript env t opts).1.metadata.transcriptLength =
        some (clean_transcript t).length ∧
      (process_transcript env t opts).1.metadata.extractionMethod =
        some (opts.method.getD "default".data)) := by
  by_cases ht : t = []
  · subst ht
    have hp : process_transcript env [] opts =
        ({ success := false
           data := none
           validation := none
           error := some invalidTranscriptMsg
           metadata := { processedAt := env.now, transcriptLength := none,
                         extractionMethod := none } }, []) := by
      unfold process_transcript
      rw [if_pos rfl]
    rw [hp]
    refine ⟨rfl, fun _ => ⟨rfl, rfl, invalidTranscriptMsg, rfl, by decide⟩, ?_⟩
    intro hs
    simp at hs
  · rcases hx : extract_clinical_data env (generate_prompt (clean_transcript t)) opts
      with ⟨res, calls⟩
    cases res with
    | ok x =>
      rw [process_transcript_ok env t opts x calls ht hx]
      refine ⟨rfl, ?_, fun _ => ⟨rfl, rfl, rfl⟩⟩
      intro hs
      simp at hs
    | error e =>
      rw [process_transcript_err env t opts e calls ht hx]
      refine ⟨rfl,
        fun _ => ⟨rfl, rfl, e, rfl, extract_error_nonempty env _ opts h e calls hx⟩, ?_⟩
      intro hs
      simp at hs

/-- C6, witness: the envelope guarantees evaluated in the keyless environment
on transcript `"hi"` (where the run fails with the no-provider error). -/
theorem C6_orchestrator_envelope_witness :
    (process_transcript envNoProviders "hi".data { mockResponse := false, method := none }).1.metadata.processedAt =
      envNoProviders.now ∧
    ((process_transcript envNoProviders "hi".data { mockResponse := false, method := none }).1.success = false →
      (process_transcript envNoProviders "hi".data { mockResponse := false, method := none }).1.data = none ∧
      (process_transcript envNoProviders "hi".data { mockResponse := false, method := none }).1.validation = none ∧
      ∃ e, (process_transcript envNoProviders "hi".data { mockResponse := false, method := none }).1.error = some e ∧
        e ≠ []) ∧
    ((process_transcript envNoProviders "hi".data { mockResponse := false, method := none }).1.success = true →
      (process_transcript envNoProviders "hi".data { mockResponse := false, method := none }).1.error = none ∧
      (process_transcript envNoProviders "hi".data { mockResponse := false, method := none }).1.metadata.transcriptLength =
        some (clean_transcript "hi".data).length ∧
      (process_transcript envNoProviders "hi".data { mockResponse := false, method := none }).1.metadata.extractionMethod =
        some (({ mockResponse := false, method := none } : PipeOptions).method.getD "default".data)) :=
  C6_orchestrator_envelope envNoProviders "hi".data { mockResponse := false, method := none }
    ⟨fun _ _ _ hf _ => (nomatch hf), fun _ _ _ hg _ => (nomatch hg)⟩

end Medscribe
